import Mathlib

/-!
Verification of the Cyphon `Monitor` model (`cyphon/monitors/models.py`).

A `Monitor` watches a set of distilleries (data sinks) for recent write
activity and raises Alerts when activity falls silent for longer than its
configured interval.  Timestamps are modelled as `Int` seconds; the current
instant is passed explicitly as `now` wherever the source calls
`timezone.now()`.  Nullable Django fields become `Option`; Python truthiness
tests on them are translated faithfully (in particular `if x:` on a float is
false at `0.0`, and on a datetime it is `is not None`).
-/

/-- Time units from `TIME_UNIT_CHOICES`: seconds, minutes, hours, days. -/
inductive TimeUnit where
  | s | m | h | d
deriving DecidableEq, Repr

/-- Modelled from the spec: `utils.dateutils.convert_time_to_seconds` is not
under src/; the spec says the interval is a magnitude plus a unit
(seconds/minutes/hours/days) converted to seconds. -/
def convert_time_to_seconds (magnitude : Int) (unit : TimeUnit) : Int :=
  match unit with
  | .s => magnitude
  | .m => magnitude * 60
  | .h => magnitude * 3600
  | .d => magnitude * 86400

/-- Modelled from the spec: `utils.dateutils.convert_seconds` is not under
src/; the spec says: round down to whole units and pick the largest unit
(seconds/minutes/hours/days) whose magnitude is at least 1, e.g. 95 s
becomes "1 m". -/
def convert_seconds (seconds : Int) : String :=
  if seconds < 60 then toString seconds ++ " s"
  else if seconds < 3600 then toString (seconds / 60) ++ " m"
  else if seconds < 86400 then toString (seconds / 3600) ++ " h"
  else toString (seconds / 86400) ++ " d"

/-- A stored document, reduced to the fields the monitor reads: its id
(`doc.get('_id')`) and the value of its searchable date field
(`distillery.get_date(doc)`). -/
structure Record where
  id : String
  date : Int
deriving DecidableEq, Repr

/-- A distillery (watched sink): its searchable date field, if any
(`get_searchable_date_field`), and its stored records. -/
structure Distillery where
  name : String
  date_field : Option String
  records : List Record
deriving DecidableEq, Repr

/-- `pickNewest l` models `distillery.find(query, sorter, page=1, page_size=1)`
taking `results['results'][0]`: the records sorted descending by date (stable,
so the earliest record wins a tie) and truncated to one result. -/
def pickNewest : List Record → Option Record
  | [] => none
  | r :: rs =>
    match pickNewest rs with
    | none => some r
    | some b => if b.date ≤ r.date then some r else some b

/-- `Distillery.find` with the query fieldset `date gt start` and a descending
date sorter, page size 1: the newest record whose date is strictly greater
than `start`, if any. -/
def Distillery.find (d : Distillery) (start : Int) : Option Record :=
  pickNewest (d.records.filter (fun r => start < r.date))

/-- The monitor state: Django fields of `Monitor` that the claims touch.
`id` is `none` for a never-persisted row. -/
structure Monitor where
  name : String
  id : Option Nat
  enabled : Bool
  time_interval : Int
  time_unit : TimeUnit
  alerts_enabled : Bool
  repeating_alerts : Bool
  alert_level : String
  last_alert_date : Option Int
  last_alert_id : Option Nat
  status : String
  created_date : Option Int
  last_healthy : Option Int
  last_active_distillery : Option Distillery
  last_saved_doc : Option String
deriving DecidableEq, Repr

/-- `Monitor._HEALTHY`. -/
def Monitor.HEALTHY : String := "GREEN"

/-- `Monitor._UNHEALTHY`. -/
def Monitor.UNHEALTHY : String := "RED"

/-- `Monitor._get_interval_in_seconds`. -/
def Monitor.get_interval_in_seconds (m : Monitor) : Int :=
  convert_time_to_seconds m.time_interval m.time_unit

/-- `Monitor._get_inactive_seconds`: seconds since `last_healthy`, falling
back to `created_date`, else 0. -/
def Monitor.get_inactive_seconds (m : Monitor) (now : Int) : Int :=
  match m.last_healthy, m.created_date with
  | some lh, _ => now - lh
  | none, some cd => now - cd
  | none, none => 0

/-- `Monitor._get_last_alert_seconds`: `None` when no alert was ever sent. -/
def Monitor.get_last_alert_seconds (m : Monitor) (now : Int) : Option Int :=
  m.last_alert_date.map (fun d => now - d)

/-- `Monitor._get_inactive_interval`. -/
def Monitor.get_inactive_interval (m : Monitor) (now : Int) : String :=
  convert_seconds (m.get_inactive_seconds now)

/-- `Monitor._is_overdue`. -/
def Monitor.is_overdue (m : Monitor) (now : Int) : Bool :=
  m.get_interval_in_seconds < m.get_inactive_seconds now

/-- `Monitor._get_interval_start`: `now - timedelta(seconds=interval)`. -/
def Monitor.get_interval_start (m : Monitor) (now : Int) : Int :=
  now - m.get_interval_in_seconds

/-- `Monitor._get_query_start_time`: `last_healthy` when it exists and is
strictly before the interval start ("whichever is older"), else the interval
start. -/
def Monitor.get_query_start_time (m : Monitor) (now : Int) : Int :=
  let interval_start := m.get_interval_start now
  match m.last_healthy with
  | some lh => if lh < interval_start then lh else interval_start
  | none => interval_start

/-- `Monitor._get_most_recent_doc`: skip the distillery if it has no
searchable date field, otherwise query it for the newest record strictly
after the query start time. -/
def Monitor.get_most_recent_doc (m : Monitor) (now : Int) (d : Distillery) :
    Option Record :=
  match d.date_field with
  | none => none
  | some _ => d.find (m.get_query_start_time now)

/-- One iteration of the loop in `Monitor._update_doc_info`: if the
distillery has a most recent doc whose date beats `last_healthy` (or
`last_healthy` is unset), take over its date, distillery and doc id. -/
def Monitor.update_doc_step (now : Int) (m : Monitor) (d : Distillery) :
    Monitor :=
  match m.get_most_recent_doc now d with
  | none => m
  | some doc =>
    match m.last_healthy with
    | none =>
      { m with last_healthy := some doc.date,
               last_active_distillery := some d,
               last_saved_doc := some doc.id }
    | some lh =>
      if lh < doc.date then
        { m with last_healthy := some doc.date,
                 last_active_distillery := some d,
                 last_saved_doc := some doc.id }
      else m

/-- `Monitor._update_doc_info`: scan every watched distillery in order. -/
def Monitor.update_doc_info (m : Monitor) (now : Int)
    (sinks : List Distillery) : Monitor :=
  sinks.foldl (Monitor.update_doc_step now) m

/-- `Monitor._set_current_status`. -/
def Monitor.set_current_status (m : Monitor) (now : Int) : Monitor :=
  if m.is_overdue now then { m with status := Monitor.UNHEALTHY }
  else { m with status := Monitor.HEALTHY }

/-- `Monitor._update_fields`: the activity scan runs only for persisted
monitors (`if self.id:`); the status recompute always runs. -/
def Monitor.update_fields (m : Monitor) (now : Int)
    (sinks : List Distillery) : Monitor :=
  let m1 := if m.id.isSome then m.update_doc_info now sinks else m
  m1.set_current_status now

/-- `Monitor.save`: the pre-save hook `_update_fields` followed by the ORM
write (which itself changes none of the modelled fields). -/
def Monitor.save (m : Monitor) (now : Int) (sinks : List Distillery) :
    Monitor :=
  m.update_fields now sinks

/-- `Monitor._get_title`. -/
def Monitor.get_title (m : Monitor) (now : Int) : String :=
  "Health monitor \"" ++ m.name ++ "\" has seen no activity for over "
    ++ m.get_inactive_interval now ++ "."

/-- `Monitor._alert_due`.  Python's `if last_alert_time:` is false both for
`None` and for `0.0`, so an elapsed time of exactly zero seconds falls into
the `else: return True` branch. -/
def Monitor.alert_due (m : Monitor) (now : Int) : Bool :=
  match m.get_last_alert_seconds now with
  | some t => if t ≠ 0 then m.get_interval_in_seconds < t else true
  | none => true

/-- An Alert row, with the fields `Monitor._create_alert` sets and the two
the database assigns on save (`created_date`, `pk`). -/
structure Alert where
  title : String
  level : String
  distillery : Option Distillery
  doc_id : Option String
  created_date : Int
  pk : Nat
deriving DecidableEq, Repr

/-- Outcome of `alert.save()`: the database either persists the row,
assigning its creation timestamp and primary key, or raises. -/
inductive SaveOutcome where
  | ok (created_date : Int) (pk : Nat)
  | fail
deriving DecidableEq, Repr

/-- `Monitor._create_alert`: build the Alert and save it; a persistence
failure propagates as an exception (`none`). -/
def Monitor.create_alert (m : Monitor) (now : Int) (outcome : SaveOutcome) :
    Option Alert :=
  match outcome with
  | .ok cd pk =>
    some { title := m.get_title now,
           level := m.alert_level,
           distillery := m.last_active_distillery,
           doc_id := m.last_saved_doc,
           created_date := cd,
           pk := pk }
  | .fail => none

/-- `Monitor._alert`: decide whether to fire; on firing, create the Alert,
record its creation date and id on the monitor, and save the monitor.
`Except.error` models the exception propagating out of `alert.save()`
before any monitor field was touched.  The returned `Option Alert` is the
alert created by this call, if any. -/
def Monitor.alert (m : Monitor) (old_status : String) (now : Int)
    (sinks : List Distillery) (outcome : SaveOutcome) :
    Except String (Monitor × Option Alert) :=
  let repeat_alert := m.repeating_alerts && m.alert_due now
  let status_changed := old_status != Monitor.UNHEALTHY
  if m.alerts_enabled && (repeat_alert || status_changed) then
    match m.create_alert now outcome with
    | some a =>
      let m1 := { m with last_alert_date := some a.created_date,
                         last_alert_id := some a.pk }
      .ok (m1.save now sinks, some a)
    | none => .error "AlertPersistenceFailed"
  else
    .ok (m, none)

/-- `Monitor.update_status`: save (re-evaluating activity and status), then
fire the alert policy when unhealthy.  Returns the final monitor, the alert
created by this call (if any), and the returned status string. -/
def Monitor.update_status (m : Monitor) (now : Int)
    (sinks : List Distillery) (outcome : SaveOutcome) :
    Except String (Monitor × Option Alert × String) :=
  let old_status := m.status
  let m1 := m.save now sinks
  if m1.status = Monitor.UNHEALTHY then
    match m1.alert old_status now sinks outcome with
    | .ok (m2, a) => .ok (m2, a, m2.status)
    | .error e => .error e
  else
    .ok (m1, none, m1.status)

/-! ### Helper lemmas -/

theorem get_query_start_some (m : Monitor) (now : Int) (lh : Int)
    (h : m.last_healthy = some lh) :
    m.get_query_start_time now = min lh (m.get_interval_start now) := by
  unfold Monitor.get_query_start_time
  rw [h]
  dsimp only
  split_ifs <;> omega

theorem get_query_start_none (m : Monitor) (now : Int)
    (h : m.last_healthy = none) :
    m.get_query_start_time now = m.get_interval_start now := by
  unfold Monitor.get_query_start_time
  rw [h]

theorem set_current_status_frame (m : Monitor) (now : Int) :
    (m.set_current_status now).name = m.name ∧
    (m.set_current_status now).id = m.id ∧
    (m.set_current_status now).time_interval = m.time_interval ∧
    (m.set_current_status now).time_unit = m.time_unit ∧
    (m.set_current_status now).alerts_enabled = m.alerts_enabled ∧
    (m.set_current_status now).repeating_alerts = m.repeating_alerts ∧
    (m.set_current_status now).last_alert_date = m.last_alert_date ∧
    (m.set_current_status now).last_alert_id = m.last_alert_id ∧
    (m.set_current_status now).created_date = m.created_date ∧
    (m.set_current_status now).last_healthy = m.last_healthy ∧
    (m.set_current_status now).last_active_distillery
      = m.last_active_distillery ∧
    (m.set_current_status now).last_saved_doc = m.last_saved_doc := by
  unfold Monitor.set_current_status
  split_ifs <;> simp

theorem update_doc_step_frame (now : Int) (m : Monitor) (d : Distillery) :
    (Monitor.update_doc_step now m d).name = m.name ∧
    (Monitor.update_doc_step now m d).id = m.id ∧
    (Monitor.update_doc_step now m d).time_interval = m.time_interval ∧
    (Monitor.update_doc_step now m d).time_unit = m.time_unit ∧
    (Monitor.update_doc_step now m d).alerts_enabled = m.alerts_enabled ∧
    (Monitor.update_doc_step now m d).repeating_alerts
      = m.repeating_alerts ∧
    (Monitor.update_doc_step now m d).last_alert_date = m.last_alert_date ∧
    (Monitor.update_doc_step now m d).last_alert_id = m.last_alert_id ∧
    (Monitor.update_doc_step now m d).status = m.status ∧
    (Monitor.update_doc_step now m d).created_date = m.created_date := by
  unfold Monitor.update_doc_step
  cases m.get_most_recent_doc now d with
  | none => simp
  | some doc =>
    cases m.last_healthy with
    | none => simp
    | some lh =>
      dsimp only
      split_ifs <;> simp

theorem update_doc_info_frame (now : Int) (sinks : List Distillery)
    (m : Monitor) :
    (m.update_doc_info now sinks).name = m.name ∧
    (m.update_doc_info now sinks).id = m.id ∧
    (m.update_doc_info now sinks).time_interval = m.time_interval ∧
    (m.update_doc_info now sinks).time_unit = m.time_unit ∧
    (m.update_doc_info now sinks).alerts_enabled = m.alerts_enabled ∧
    (m.update_doc_info now sinks).repeating_alerts = m.repeating_alerts ∧
    (m.update_doc_info now sinks).last_alert_date = m.last_alert_date ∧
    (m.update_doc_info now sinks).last_alert_id = m.last_alert_id ∧
    (m.update_doc_info now sinks).status = m.status ∧
    (m.update_doc_info now sinks).created_date = m.created_date := by
  induction sinks generalizing m with
  | nil => simp [Monitor.update_doc_info]
  | cons d rest ih =>
    have hs := update_doc_step_frame now m d
    have hr := ih (Monitor.update_doc_step now m d)
    simp only [Monitor.update_doc_info, List.foldl_cons] at *
    exact ⟨hr.1.trans hs.1, hr.2.1.trans hs.2.1,
      hr.2.2.1.trans hs.2.2.1, hr.2.2.2.1.trans hs.2.2.2.1,
      hr.2.2.2.2.1.trans hs.2.2.2.2.1,
      hr.2.2.2.2.2.1.trans hs.2.2.2.2.2.1,
      hr.2.2.2.2.2.2.1.trans hs.2.2.2.2.2.2.1,
      hr.2.2.2.2.2.2.2.1.trans hs.2.2.2.2.2.2.2.1,
      hr.2.2.2.2.2.2.2.2.1.trans hs.2.2.2.2.2.2.2.2.1,
      hr.2.2.2.2.2.2.2.2.2.trans hs.2.2.2.2.2.2.2.2.2⟩

theorem save_frame (m : Monitor) (now : Int) (sinks : List Distillery) :
    (m.save now sinks).name = m.name ∧
    (m.save now sinks).id = m.id ∧
    (m.save now sinks).time_interval = m.time_interval ∧
    (m.save now sinks).time_unit = m.time_unit ∧
    (m.save now sinks).alerts_enabled = m.alerts_enabled ∧
    (m.save now sinks).repeating_alerts = m.repeating_alerts ∧
    (m.save now sinks).last_alert_date = m.last_alert_date ∧
    (m.save now sinks).last_alert_id = m.last_alert_id := by
  unfold Monitor.save Monitor.update_fields
  cases h : m.id.isSome <;> dsimp only
  · have hc := set_current_status_frame m now
    exact ⟨hc.1, hc.2.1, hc.2.2.1, hc.2.2.2.1, hc.2.2.2.2.1,
      hc.2.2.2.2.2.1, hc.2.2.2.2.2.2.1, hc.2.2.2.2.2.2.2.1⟩
  · have hu := update_doc_info_frame now sinks m
    have hc := set_current_status_frame (m.update_doc_info now sinks) now
    exact ⟨hc.1.trans hu.1, hc.2.1.trans hu.2.1,
      hc.2.2.1.trans hu.2.2.1, hc.2.2.2.1.trans hu.2.2.2.1,
      hc.2.2.2.2.1.trans hu.2.2.2.2.1,
      hc.2.2.2.2.2.1.trans hu.2.2.2.2.2.1,
      hc.2.2.2.2.2.2.1.trans hu.2.2.2.2.2.2.1,
      hc.2.2.2.2.2.2.2.1.trans hu.2.2.2.2.2.2.2.1⟩

/-! ### Concrete instances used in counterexamples and witnesses -/

/-- A baseline monitor used for counterexamples and witnesses. -/
def baseMon : Monitor :=
  { name := "test", id := some 1, enabled := true, time_interval := 1,
    time_unit := TimeUnit.m, alerts_enabled := true,
    repeating_alerts := false, alert_level := "HIGH",
    last_alert_date := none, last_alert_id := none, status := "GREEN",
    created_date := some 0, last_healthy := none,
    last_active_distillery := none, last_saved_doc := none }

/-- Monitor whose `last_healthy` lies before the interval start at
`now = 100` (interval = 1 minute, so the interval start is 40). -/
def c1mon : Monitor := { baseMon with last_healthy := some 0 }

/-- Monitor whose last alert was created exactly at `now = 100`. -/
def c3mon : Monitor := { baseMon with last_alert_date := some 100 }

/-! ### C1 -/

/-- C1 counterexample: with `last_healthy = 0`, interval 1 minute and
`now = 100`, the interval start is 40 but the query start time the code
computes is 0 — strictly *earlier* than the interval start, where the claim
demands the interval start (never earlier than it). -/
theorem query_start_before_interval_start :
    c1mon.last_healthy = some 0 ∧
    c1mon.get_interval_start 100 = 40 ∧
    c1mon.get_query_start_time 100 = 0 ∧
    c1mon.get_query_start_time 100 < c1mon.get_interval_start 100 := by
  decide

/-- C1 (amended): the query start time is the *earlier* of `last_healthy`
and the interval start — it equals `last_healthy` when that is set and
strictly before the interval start, and the interval start otherwise; in
particular it is never later than the interval start. -/
theorem query_start_time_is_min (m : Monitor) (now : Int) :
    (∀ lh, m.last_healthy = some lh →
      m.get_query_start_time now = min lh (m.get_interval_start now)) ∧
    (m.last_healthy = none →
      m.get_query_start_time now = m.get_interval_start now) ∧
    m.get_query_start_time now ≤ m.get_interval_start now := by
  refine ⟨fun lh h => get_query_start_some m now lh h,
    fun h => get_query_start_none m now h, ?_⟩
  cases h : m.last_healthy with
  | none => rw [get_query_start_none m now h]
  | some lh => rw [get_query_start_some m now lh h]; omega

/-- C1 witness for `query_start_time_is_min` at `c1mon`, `now = 100`. -/
theorem query_start_time_is_min_witness :
    c1mon.get_query_start_time 100
      = min 0 (c1mon.get_interval_start 100) ∧
    c1mon.get_query_start_time 100 ≤ c1mon.get_interval_start 100 :=
  ⟨(query_start_time_is_min c1mon 100).1 0 (by decide),
   (query_start_time_is_min c1mon 100).2.2⟩

/-! ### C2 -/

/-- C2: after status evaluation the status is UNHEALTHY iff the inactive
seconds strictly exceed the interval seconds; exact equality yields HEALTHY;
and the inactive seconds are `now - last_healthy` when set, else
`now - created_date` when set, else 0. -/
theorem status_unhealthy_iff_strict (m : Monitor) (now : Int) :
    ((m.set_current_status now).status = Monitor.UNHEALTHY ↔
      m.get_interval_in_seconds < m.get_inactive_seconds now) ∧
    (m.get_inactive_seconds now = m.get_interval_in_seconds →
      (m.set_current_status now).status = Monitor.HEALTHY) ∧
    (∀ lh, m.last_healthy = some lh →
      m.get_inactive_seconds now = now - lh) ∧
    (∀ cd, m.last_healthy = none → m.created_date = some cd →
      m.get_inactive_seconds now = now - cd) ∧
    (m.last_healthy = none → m.created_date = none →
      m.get_inactive_seconds now = 0) := by
  refine ⟨?_, ?_, ?_, ?_, ?_⟩
  · unfold Monitor.set_current_status Monitor.is_overdue
    split_ifs with h <;>
      simp_all [Monitor.HEALTHY, Monitor.UNHEALTHY]
  · intro h
    unfold Monitor.set_current_status Monitor.is_overdue
    split_ifs with h2 <;> simp_all
  · intro lh h
    unfold Monitor.get_inactive_seconds
    rw [h]
  · intro cd h1 h2
    unfold Monitor.get_inactive_seconds
    rw [h1, h2]
  · intro h1 h2
    unfold Monitor.get_inactive_seconds
    rw [h1, h2]

/-- C2 witness for `status_unhealthy_iff_strict` at a monitor whose
inactivity (60 s) equals its interval (1 m) exactly: status is HEALTHY. -/
theorem status_unhealthy_iff_strict_witness :
    (c1mon.set_current_status 60).status = Monitor.HEALTHY ∧
    c1mon.get_inactive_seconds 60 = 60 - 0 :=
  ⟨(status_unhealthy_iff_strict c1mon 60).2.1 (by decide),
   (status_unhealthy_iff_strict c1mon 60).2.2.1 0 (by decide)⟩

/-! ### C3 -/

/-- C3: the code contradicts the claim (and its own docstring) at exactly
zero elapsed seconds since the last alert: `_get_last_alert_seconds` is 0,
`0 > interval` is false, yet `_alert_due` returns `True`, because Python's
`if last_alert_time:` treats the float `0.0` like `None`. -/
theorem alert_due_zero_elapsed_true :
    c3mon.get_last_alert_seconds 100 = some 0 ∧
    ¬ c3mon.get_interval_in_seconds < 0 ∧
    c3mon.alert_due 100 = true := by
  decide

/-! ### C9 -/

/-- C9: saving a never-persisted monitor (no id) skips the activity scan —
`last_healthy`, `last_active_distillery` and `last_saved_doc` are unchanged
— but still recomputes status; saving a persisted monitor runs the scan and
then recomputes status. -/
theorem save_skips_scan_for_unsaved (m : Monitor) (now : Int)
    (sinks : List Distillery) :
    (m.id = none →
      (m.save now sinks).last_healthy = m.last_healthy ∧
      (m.save now sinks).last_active_distillery
        = m.last_active_distillery ∧
      (m.save now sinks).last_saved_doc = m.last_saved_doc ∧
      m.save now sinks = m.set_current_status now) ∧
    (∀ i, m.id = some i →
      m.save now sinks = (m.update_doc_info now sinks).set_current_status
        now) := by
  constructor
  · intro h
    have hsave : m.save now sinks = m.set_current_status now := by
      unfold Monitor.save Monitor.update_fields
      rw [h]
      rfl
    rw [hsave]
    have hc := set_current_status_frame m now
    exact ⟨hc.2.2.2.2.2.2.2.2.2.1, hc.2.2.2.2.2.2.2.2.2.2.1,
      hc.2.2.2.2.2.2.2.2.2.2.2, rfl⟩
  · intro i h
    unfold Monitor.save Monitor.update_fields
    rw [h]
    rfl

/-- C9 witness for `save_skips_scan_for_unsaved`: a fresh monitor (no id)
and a persisted one. -/
theorem save_skips_scan_for_unsaved_witness :
    (({ baseMon with id := none } : Monitor).save 100 []).last_healthy
      = ({ baseMon with id := none } : Monitor).last_healthy ∧
    baseMon.save 100 []
      = (baseMon.update_doc_info 100 []).set_current_status 100 :=
  ⟨((save_skips_scan_for_unsaved { baseMon with id := none } 100 []).1
      (by decide)).1,
   (save_skips_scan_for_unsaved baseMon 100 []).2 1 (by decide)⟩

/-! ### C7 -/

/-- C7: the alert title is exactly
`Health monitor "{name}" has seen no activity for over {downtime}.` where
downtime is the inactive interval rounded down to a whole number of the
largest applicable unit (seconds below a minute, minutes below an hour,
hours below a day, else days). -/
theorem alert_title_format (m : Monitor) (now : Int) :
    m.get_title now
      = "Health monitor \"" ++ m.name
        ++ "\" has seen no activity for over "
        ++ convert_seconds (m.get_inactive_seconds now) ++ "." ∧
    (∀ s : Int, 0 ≤ s → s < 60 →
      convert_seconds s = toString s ++ " s") ∧
    (∀ s : Int, 60 ≤ s → s < 3600 →
      convert_seconds s = toString (s / 60) ++ " m") ∧
    (∀ s : Int, 3600 ≤ s → s < 86400 →
      convert_seconds s = toString (s / 3600) ++ " h") ∧
    (∀ s : Int, 86400 ≤ s →
      convert_seconds s = toString (s / 86400) ++ " d") := by
  refine ⟨rfl, ?_, ?_, ?_, ?_⟩
  · intro s h1 h2
    unfold convert_seconds
    split_ifs <;> first | rfl | omega
  · intro s h1 h2
    unfold convert_seconds
    split_ifs <;> first | rfl | omega
  · intro s h1 h2
    unfold convert_seconds
    split_ifs <;> first | rfl | omega
  · intro s h1
    unfold convert_seconds
    split_ifs <;> first | rfl | omega

/-- C7 witness for `alert_title_format`: a monitor named "test" inactive for
35 seconds, and the spec's own example 95 s → "1 m". -/
theorem alert_title_format_witness :
    c1mon.get_title 35
      = "Health monitor \"test\" has seen no activity for over 35 s." ∧
    convert_seconds 95 = "1 m" := by
  refine ⟨?_, ?_⟩
  · rw [(alert_title_format c1mon 35).1]
    rfl
  · exact ((alert_title_format c1mon 35).2.2.1 95 (by decide)
      (by decide)).trans (by decide)

/-! ### C8 -/

theorem save_alert_due (m : Monitor) (now now2 : Int)
    (sinks : List Distillery) :
    (m.save now sinks).alert_due now2 = m.alert_due now2 := by
  have hf := save_frame m now sinks
  unfold Monitor.alert_due Monitor.get_last_alert_seconds
    Monitor.get_interval_in_seconds
  rw [hf.2.2.2.2.2.2.1, hf.2.2.1, hf.2.2.2.1]

/-- C8: only alert emission mutates the alert bookkeeping, and it does so
atomically with alert persistence: a plain save never changes
`last_alert_date`/`last_alert_id`; when alert persistence fails, `_alert`
either raises `AlertPersistenceFailed` (monitor untouched) or — when the
policy does not fire — returns the monitor unchanged; and on success the
two fields are set exactly to the created alert's creation date and id. -/
theorem alert_bookkeeping_atomic (m : Monitor) (old_status : String)
    (now : Int) (sinks : List Distillery) :
    ((m.save now sinks).last_alert_date = m.last_alert_date ∧
     (m.save now sinks).last_alert_id = m.last_alert_id) ∧
    (m.alert old_status now sinks SaveOutcome.fail
        = Except.error "AlertPersistenceFailed" ∨
     m.alert old_status now sinks SaveOutcome.fail
        = Except.ok (m, none)) ∧
    (∀ m1 a, m.alert old_status now sinks SaveOutcome.fail
        = Except.ok (m1, a) → m1 = m ∧ a = none) ∧
    (∀ cd pk m1 a,
      m.alert old_status now sinks (SaveOutcome.ok cd pk)
          = Except.ok (m1, some a) →
      m1.last_alert_date = some a.created_date ∧
      m1.last_alert_id = some a.pk ∧
      a.created_date = cd ∧ a.pk = pk) := by
  have hf := save_frame m now sinks
  refine ⟨⟨hf.2.2.2.2.2.2.1, hf.2.2.2.2.2.2.2⟩, ?_, ?_, ?_⟩
  · unfold Monitor.alert Monitor.create_alert
    dsimp only
    split_ifs with hfire
    · exact Or.inl rfl
    · exact Or.inr rfl
  · intro m1 a h
    unfold Monitor.alert Monitor.create_alert at h
    dsimp only at h
    split_ifs at h with hfire <;>
      simp only [Except.ok.injEq, Prod.mk.injEq] at h <;>
      exact ⟨h.1.symm, h.2.symm⟩
  · intro cd pk m1 a h
    unfold Monitor.alert Monitor.create_alert at h
    dsimp only at h
    split_ifs at h with hfire
    · simp only [Except.ok.injEq, Prod.mk.injEq, Option.some.injEq] at h
      obtain ⟨hm1, ha⟩ := h
      have hfa := save_frame
        { m with last_alert_date := some cd, last_alert_id := some pk }
        now sinks
      subst hm1
      refine ⟨?_, ?_, ?_, ?_⟩
      · rw [hfa.2.2.2.2.2.2.1, ← ha]
      · rw [hfa.2.2.2.2.2.2.2, ← ha]
      · rw [← ha]
      · rw [← ha]
    · exact absurd h (by simp)

/-- C8 witness for `alert_bookkeeping_atomic`: a firing monitor whose alert
persists with creation date 100 and id 7. -/
theorem alert_bookkeeping_atomic_witness :
    ∀ m1 a, baseMon.alert "GREEN" 100 [] (SaveOutcome.ok 100 7)
        = Except.ok (m1, some a) →
      m1.last_alert_date = some a.created_date ∧
      m1.last_alert_id = some a.pk ∧
      a.created_date = 100 ∧ a.pk = 7 :=
  (alert_bookkeeping_atomic baseMon "GREEN" 100 []).2.2.2 100 7

/-! ### C4 -/

/-- Whether a call to `update_status` created an alert. -/
def firedAlert : Except String (Monitor × Option Alert × String) → Bool
  | .ok (_, some _, _) => true
  | _ => false

/-- C4: when the new status is Unhealthy and alert persistence succeeds, an
alert is created iff `alerts_enabled && ((repeating_alerts && alert_due) ||
old status ≠ UNHEALTHY)`; consequently a non-repeating monitor that was
already Unhealthy fires nothing on a subsequent evaluation, so a monitor
staying Unhealthy across two evaluations alerts only on the first. -/
theorem alert_fires_iff_policy (m : Monitor) (now : Int)
    (sinks : List Distillery) (cd : Int) (pk : Nat)
    (h : (m.save now sinks).status = Monitor.UNHEALTHY) :
    (firedAlert (m.update_status now sinks (SaveOutcome.ok cd pk))
      = (m.alerts_enabled &&
          ((m.repeating_alerts && m.alert_due now)
            || (m.status != Monitor.UNHEALTHY)))) ∧
    (m.repeating_alerts = false → m.status = Monitor.UNHEALTHY →
      firedAlert (m.update_status now sinks (SaveOutcome.ok cd pk))
        = false) := by
  have hf := save_frame m now sinks
  have hdue := save_alert_due m now now sinks
  have key : firedAlert (m.update_status now sinks (SaveOutcome.ok cd pk))
      = (m.alerts_enabled &&
          ((m.repeating_alerts && m.alert_due now)
            || (m.status != Monitor.UNHEALTHY))) := by
    unfold Monitor.update_status
    dsimp only
    rw [if_pos h]
    unfold Monitor.alert Monitor.create_alert
    dsimp only
    rw [hf.2.2.2.2.1, hf.2.2.2.2.2.1, hdue]
    split_ifs with hfire
    · simp only [firedAlert, hfire]
    · simp only [firedAlert]
      exact (Bool.not_eq_true _).mp hfire |>.symm ▸ rfl
  refine ⟨key, fun hrep hold => ?_⟩
  rw [key, hrep, hold]
  simp

/-- C4 witness for `alert_fires_iff_policy`: a previously-healthy monitor
that turns Unhealthy fires; the same monitor already Unhealthy and
non-repeating does not fire again. -/
theorem alert_fires_iff_policy_witness :
    firedAlert (baseMon.update_status 100 [] (SaveOutcome.ok 100 5))
      = true ∧
    firedAlert (({ baseMon with status := "RED" } : Monitor).update_status
      100 [] (SaveOutcome.ok 100 5)) = false := by
  constructor
  · rw [(alert_fires_iff_policy baseMon 100 [] 100 5 (by decide)).1]
    decide
  · exact (alert_fires_iff_policy { baseMon with status := "RED" } 100 []
      100 5 (by decide)).2 (by decide) (by decide)

/-! ### C5 -/

theorem update_doc_step_mono (now : Int) (m : Monitor) (d : Distillery)
    (lh : Int) (h : m.last_healthy = some lh) :
    ∃ lh2, (Monitor.update_doc_step now m d).last_healthy = some lh2 ∧
      lh ≤ lh2 := by
  unfold Monitor.update_doc_step
  cases m.get_most_recent_doc now d with
  | none => exact ⟨lh, h, le_refl lh⟩
  | some doc =>
    rw [h]
    dsimp only
    split_ifs with hlt
    · exact ⟨doc.date, rfl, le_of_lt hlt⟩
    · exact ⟨lh, h, le_refl lh⟩

/-- C5: the activity scan never regresses `last_healthy`: starting from any
set value, after `_update_doc_info` the value is still set and at least as
large (hence monotone non-decreasing across any sequence of refreshes). -/
theorem last_healthy_monotone (m : Monitor) (now : Int)
    (sinks : List Distillery) (lh : Int) (h : m.last_healthy = some lh) :
    ∃ lh2, (m.update_doc_info now sinks).last_healthy = some lh2 ∧
      lh ≤ lh2 := by
  induction sinks generalizing m lh with
  | nil => exact ⟨lh, h, le_refl lh⟩
  | cons d rest ih =>
    obtain ⟨lh1, h1, hle1⟩ := update_doc_step_mono now m d lh h
    obtain ⟨lh2, h2, hle2⟩ := ih (Monitor.update_doc_step now m d) lh1 h1
    refine ⟨lh2, ?_, le_trans hle1 hle2⟩
    simpa only [Monitor.update_doc_info, List.foldl_cons] using h2

/-- C5 witness for `last_healthy_monotone` at a concrete monitor with
`last_healthy = 0`. -/
theorem last_healthy_monotone_witness :
    ∃ lh2, (c1mon.update_doc_info 100 []).last_healthy = some lh2 ∧
      (0 : Int) ≤ lh2 :=
  last_healthy_monotone c1mon 100 [] 0 (by decide)

/-! ### C6: order (in)dependence of the activity scan -/

/-- Maximum of a list of timestamps. -/
def listMax : List Int → Option Int
  | [] => none
  | x :: xs =>
    match listMax xs with
    | none => some x
    | some mx => some (max x mx)

/-- The newest record date a distillery can contribute: none when it has no
searchable date field or no records. -/
def Distillery.sinkMax (d : Distillery) : Option Int :=
  match d.date_field with
  | none => none
  | some _ => listMax (d.records.map Record.date)

/-- The effect of one scan step on `last_healthy` alone, as a function of
the interval start, the current value and the sink's newest date. -/
def lhStep (istart : Int) (h : Option Int) (mx : Option Int) : Option Int :=
  match mx with
  | none => h
  | some mdate =>
    match h with
    | none => if istart < mdate then some mdate else none
    | some lh => some (max lh mdate)

theorem pickNewest_date (l : List Record) :
    (pickNewest l).map Record.date = listMax (l.map Record.date) := by
  induction l with
  | nil => rfl
  | cons r rs ih =>
    simp only [pickNewest, listMax, List.map_cons]
    cases h : pickNewest rs with
    | none =>
      rw [h] at ih
      simp only [Option.map_none'] at ih
      rw [← ih]
      rfl
    | some b =>
      rw [h] at ih
      simp only [Option.map_some'] at ih
      rw [← ih]
      dsimp only
      split_ifs with hle
      · simp [max_eq_left hle]
      · simp [max_eq_right (le_of_lt (lt_of_not_le hle))]

theorem filter_map_date (c : Int) (l : List Record) :
    (l.filter (fun r => c < r.date)).map Record.date
      = (l.map Record.date).filter (fun x => c < x) := by
  induction l with
  | nil => rfl
  | cons r rs ih =>
    simp only [List.filter_cons, List.map_cons]
    by_cases hc : c < r.date
    · simp [hc, ih]
    · simp [hc, ih]

theorem listMax_filter (c : Int) (l : List Int) :
    listMax (l.filter (fun x => c < x))
      = (listMax l).bind (fun mx => if c < mx then some mx else none) := by
  induction l with
  | nil => rfl
  | cons x xs ih =>
    simp only [List.filter_cons, listMax]
    cases hm : listMax xs with
    | none =>
      rw [hm] at ih
      simp only [Option.none_bind] at ih
      by_cases hc : c < x
      · simp [hc, ih, listMax]
      · simp [hc, ih]
    | some mx =>
      rw [hm] at ih
      simp only [Option.some_bind] at ih
      simp only [Option.some_bind]
      by_cases hc : c < x
      · rw [if_pos (by simpa using hc : (decide (c < x)) = true)]
        simp only [listMax]
        by_cases hcm : c < mx
        · rw [if_pos hcm] at ih
          rw [ih]
          dsimp only
          rw [if_pos (lt_of_lt_of_le hc (le_max_left x mx))]
        · rw [if_neg hcm] at ih
          rw [ih]
          dsimp only
          rw [if_pos (lt_of_lt_of_le hc (le_max_left x mx)),
            max_eq_left (le_trans (not_lt.mp hcm) (le_of_lt hc))]
      · rw [if_neg (by simpa using hc : ¬ (decide (c < x)) = true)]
        by_cases hcm : c < mx
        · rw [if_pos hcm] at ih
          rw [ih,
            if_pos (lt_of_lt_of_le hcm (le_max_right x mx)),
            max_eq_right (le_trans (not_lt.mp hc) (le_of_lt hcm))]
        · rw [if_neg hcm] at ih
          rw [ih, if_neg (not_lt.mpr (max_le (not_lt.mp hc) (not_lt.mp hcm)))]

theorem find_date (d : Distillery) (qs : Int) :
    (d.find qs).map Record.date
      = (listMax (d.records.map Record.date)).bind
          (fun mx => if qs < mx then some mx else none) := by
  unfold Distillery.find
  rw [pickNewest_date, filter_map_date, listMax_filter]

theorem update_doc_step_lh (now : Int) (m : Monitor) (d : Distillery) :
    (Monitor.update_doc_step now m d).last_healthy
      = lhStep (m.get_interval_start now) m.last_healthy d.sinkMax := by
  unfold Monitor.update_doc_step Monitor.get_most_recent_doc
    Distillery.sinkMax
  cases hdf : d.date_field with
  | none => cases m.last_healthy <;> rfl
  | some f =>
    have hfd := find_date d (m.get_query_start_time now)
    cases hM : listMax (d.records.map Record.date) with
    | none =>
      rw [hM, Option.none_bind] at hfd
      rw [Option.map_eq_none'.mp hfd]
      rfl
    | some M =>
      rw [hM, Option.some_bind] at hfd
      by_cases hq : m.get_query_start_time now < M
      · rw [if_pos hq] at hfd
        obtain ⟨r, hr, hrd⟩ := Option.map_eq_some'.mp hfd
        rw [hr]
        cases hlh : m.last_healthy with
        | none =>
          have hqs := get_query_start_none m now hlh
          rw [hqs] at hq
          dsimp only [lhStep]
          rw [hrd, if_pos hq]
        | some lh =>
          have hqs := get_query_start_some m now lh hlh
          rw [hqs] at hq
          dsimp only [lhStep]
          rw [hrd]
          split_ifs with hlt
          · rw [max_eq_right (le_of_lt hlt)]
          · rw [hlh, max_eq_left (not_lt.mp hlt)]
      · rw [if_neg hq] at hfd
        rw [Option.map_eq_none'.mp hfd]
        cases hlh : m.last_healthy with
        | none =>
          have hqs := get_query_start_none m now hlh
          rw [hqs] at hq
          dsimp only [lhStep]
          rw [if_neg hq]
        | some lh =>
          have hqs := get_query_start_some m now lh hlh
          rw [hqs] at hq
          dsimp only [lhStep]
          rw [max_eq_left (le_trans (not_lt.mp hq) (min_le_left lh _))]

theorem update_doc_step_interval_start (now now2 : Int) (m : Monitor)
    (d : Distillery) :
    (Monitor.update_doc_step now m d).get_interval_start now2
      = m.get_interval_start now2 := by
  unfold Monitor.get_interval_start Monitor.get_interval_in_seconds
  rw [(update_doc_step_frame now m d).2.2.1,
    (update_doc_step_frame now m d).2.2.2.1]

theorem update_doc_info_lh (now : Int) (sinks : List Distillery)
    (m : Monitor) :
    (m.update_doc_info now sinks).last_healthy
      = (sinks.map Distillery.sinkMax).foldl
          (lhStep (m.get_interval_start now)) m.last_healthy := by
  induction sinks generalizing m with
  | nil => rfl
  | cons d rest ih =>
    have step := ih (Monitor.update_doc_step now m d)
    simp only [Monitor.update_doc_info, List.foldl_cons, List.map_cons]
    simp only [Monitor.update_doc_info] at step
    rw [step, update_doc_step_interval_start now now m d,
      update_doc_step_lh now m d]

theorem lhStep_comm (istart : Int) (h a b : Option Int) :
    lhStep istart (lhStep istart h a) b
      = lhStep istart (lhStep istart h b) a := by
  cases a with
  | none => rfl
  | some da =>
    cases b with
    | none => rfl
    | some db =>
      cases h with
      | some lh =>
        dsimp only [lhStep]
        rw [sup_right_comm]
      | none =>
        dsimp only [lhStep]
        split_ifs with h1 h2 h2 <;> dsimp only <;> try rfl
        · rw [max_comm]
        · rw [max_eq_left (le_trans (not_lt.mp h2) (le_of_lt h1))]
        · rw [max_eq_left (le_trans (not_lt.mp h1) (le_of_lt h2))]

theorem foldl_perm_of_comm {α β : Type} (f : β → α → β)
    (hf : ∀ b x y, f (f b x) y = f (f b y) x)
    {l1 l2 : List α} (hp : l1.Perm l2) :
    ∀ b, l1.foldl f b = l2.foldl f b := by
  induction hp with
  | nil => intro b; rfl
  | cons x hp ih =>
    intro b
    simp only [List.foldl_cons]
    exact ih (f b x)
  | swap x y l =>
    intro b
    simp only [List.foldl_cons]
    rw [hf b y x]
  | trans h1 h2 ih1 ih2 =>
    intro b
    rw [ih1 b, ih2 b]

/-- Distillery A: one record "a1" at time 50. -/
def dA : Distillery :=
  { name := "A", date_field := some "created",
    records := [{ id := "a1", date := 50 }] }

/-- Distillery B: one record "b1", also at time 50. -/
def dB : Distillery :=
  { name := "B", date_field := some "created",
    records := [{ id := "b1", date := 50 }] }

/-- C6 counterexample: two sinks whose newest records carry the same date.
Scanning `[dA, dB]` records distillery A and doc "a1" as the winner;
scanning the permuted `[dB, dA]` records distillery B and doc "b1" — so the
scan result is not independent of iteration order. -/
theorem scan_order_dependent :
    ([dA, dB] : List Distillery).Perm [dB, dA] ∧
    (baseMon.update_doc_info 100 [dA, dB]).last_active_distillery
      = some dA ∧
    (baseMon.update_doc_info 100 [dB, dA]).last_active_distillery
      = some dB ∧
    (baseMon.update_doc_info 100 [dA, dB]).last_saved_doc = some "a1" ∧
    (baseMon.update_doc_info 100 [dB, dA]).last_saved_doc = some "b1" ∧
    dA ≠ dB := by
  decide

/-- C6 (amended): the final `last_healthy` of an activity scan is
independent of the order in which the sinks are iterated; the companion
fields `last_active_distillery` and `last_saved_doc` need not be, when two
sinks attain the same maximal record date (the earlier sink in iteration
order then wins). -/
theorem scan_last_healthy_perm (m : Monitor) (now : Int)
    (sinks1 sinks2 : List Distillery) (hp : sinks1.Perm sinks2) :
    (m.update_doc_info now sinks1).last_healthy
      = (m.update_doc_info now sinks2).last_healthy := by
  rw [update_doc_info_lh, update_doc_info_lh]
  exact foldl_perm_of_comm (lhStep (m.get_interval_start now))
    (lhStep_comm (m.get_interval_start now))
    (hp.map Distillery.sinkMax) m.last_healthy

/-- C6 witness for `scan_last_healthy_perm` on the concrete two-sink
scenario. -/
theorem scan_last_healthy_perm_witness :
    (baseMon.update_doc_info 100 [dA, dB]).last_healthy
      = (baseMon.update_doc_info 100 [dB, dA]).last_healthy :=
  scan_last_healthy_perm baseMon 100 [dA, dB] [dB, dA] (by decide)

/-! ### C10 -/

/-- The three activity fields describe a single record: either all three are
unset (no activity ever observed), or some watched distillery holds a record
whose date, origin and id they are. -/
def doc_info_consistent (sinks : List Distillery) (m : Monitor) : Prop :=
  (m.last_healthy = none ∧ m.last_active_distillery = none ∧
    m.last_saved_doc = none) ∨
  (∃ d ∈ sinks, ∃ r ∈ d.records,
    m.last_healthy = some r.date ∧
    m.last_active_distillery = some d ∧
    m.last_saved_doc = some r.id)

theorem pickNewest_mem {l : List Record} {r : Record}
    (h : pickNewest l = some r) : r ∈ l := by
  induction l with
  | nil => simp [pickNewest] at h
  | cons x xs ih =>
    simp only [pickNewest] at h
    cases hx : pickNewest xs with
    | none =>
      rw [hx] at h
      injection h with h
      exact h ▸ List.mem_cons_self x xs
    | some b =>
      rw [hx] at h
      dsimp only at h
      split_ifs at h with hle
      · injection h with h
        exact h ▸ List.mem_cons_self x xs
      · injection h with h
        exact List.mem_cons_of_mem x (ih (h ▸ hx))

theorem get_most_recent_doc_mem {m : Monitor} {now : Int} {d : Distillery}
    {r : Record} (h : m.get_most_recent_doc now d = some r) :
    r ∈ d.records := by
  unfold Monitor.get_most_recent_doc at h
  cases hdf : d.date_field with
  | none => rw [hdf] at h; exact absurd h (by simp)
  | some f =>
    rw [hdf] at h
    unfold Distillery.find at h
    exact List.mem_of_mem_filter (pickNewest_mem h)

theorem update_doc_step_consistent (now : Int) (sinks : List Distillery)
    (m : Monitor) (d : Distillery) (hd : d ∈ sinks)
    (h : doc_info_consistent sinks m) :
    doc_info_consistent sinks (Monitor.update_doc_step now m d) := by
  unfold Monitor.update_doc_step
  cases hdoc : m.get_most_recent_doc now d with
  | none => exact h
  | some doc =>
    have hmem : doc ∈ d.records := get_most_recent_doc_mem hdoc
    cases hlh : m.last_healthy with
    | none => exact Or.inr ⟨d, hd, doc, hmem, rfl, rfl, rfl⟩
    | some lh =>
      dsimp only
      split_ifs with hlt
      · exact Or.inr ⟨d, hd, doc, hmem, rfl, rfl, rfl⟩
      · exact h

theorem update_doc_foldl_consistent (now : Int) (sinks : List Distillery)
    (l : List Distillery) (hl : ∀ d ∈ l, d ∈ sinks) :
    ∀ m, doc_info_consistent sinks m →
      doc_info_consistent sinks
        (l.foldl (Monitor.update_doc_step now) m) := by
  induction l with
  | nil => exact fun m h => h
  | cons d rest ih =>
    intro m h
    simp only [List.foldl_cons]
    exact ih (fun x hx => hl x (List.mem_cons_of_mem d hx))
      (Monitor.update_doc_step now m d)
      (update_doc_step_consistent now sinks m d
        (hl d (List.mem_cons_self d rest)) h)

/-- C10: the activity scan preserves the coherence of the three activity
fields — whenever it advances `last_healthy` it rewrites
`last_active_distillery` and `last_saved_doc` from the same winning record,
so after any scan the three fields still describe a single record of some
watched distillery (or are all unset, when no activity was ever observed). -/
theorem scan_fields_describe_one_record (m : Monitor) (now : Int)
    (sinks : List Distillery) (h : doc_info_consistent sinks m) :
    doc_info_consistent sinks (m.update_doc_info now sinks) :=
  update_doc_foldl_consistent now sinks sinks (fun _ hd => hd) m h

/-- C10 witness for `scan_fields_describe_one_record`: a fresh monitor (all
three fields unset) scanning one sink. -/
theorem scan_fields_describe_one_record_witness :
    doc_info_consistent [dA] (baseMon.update_doc_info 100 [dA]) :=
  scan_fields_describe_one_record baseMon 100 [dA]
    (Or.inl ⟨rfl, rfl, rfl⟩)
